import Mathlib

/-!
Shallow embedding of the entry-management backend (TypeScript/Express/Mongoose)
for specification checking.  Pure string/list models replace the HTTP, JWT and
MongoDB libraries; each definition mirrors one source function, with timestamps
as natural-number seconds and the document store as a Lean list.
-/

set_option maxRecDepth 4000

namespace EMB

/-! ### Character-list string helpers (models of JS `String.prototype.split` and
`String.prototype.includes`, which the source uses in `jwt.ts` and `auth.ts`) -/

/-- Split a character list at every occurrence of `c` (model of JS `s.split(c)`,
which yields `[""]` on the empty string). -/
def splitOnChar (c : Char) : List Char → List (List Char)
  | [] => [[]]
  | x :: xs =>
    match splitOnChar c xs with
    | [] => [[]]
    | h :: t => if x = c then [] :: h :: t else (x :: h) :: t

/-- `leadsWith pat s` : `pat` occurs at the start of `s`. -/
def leadsWith : List Char → List Char → Bool
  | [], _ => true
  | _ :: _, [] => false
  | a :: as, b :: bs => a = b && leadsWith as bs

/-- `occursIn pat s` : `pat` occurs contiguously somewhere in `s`. -/
def occursIn (pat : List Char) : List Char → Bool
  | [] => leadsWith pat []
  | c :: rest => leadsWith pat (c :: rest) || occursIn pat rest

/-- Model of JS `s.includes(pat)` (case-sensitive substring test). -/
def strContains (s pat : String) : Bool := occursIn pat.data s.data

/-! ### Configuration (`src/config/config.ts`, default values) -/

def JWT_SECRET : String := "your-super-secret-jwt-key-change-this-in-production"

def JWT_REFRESH_SECRET : String := "your-super-secret-refresh-key-change-this-in-production"

/-! ### `jsonwebtoken` library model

A signed token is modelled as its decoded payload plus the registered claims
and the identity of the signing secret (standing in for the signature).
`jwtVerify` follows the library's documented checks in order: signature,
expiration (`TokenExpiredError`), audience, issuer (both `JsonWebTokenError`).
Signing with no `issuer`/`audience` option leaves those claims absent. -/

structure TokenPayload where
  id : String
  email : String
  role : String
deriving DecidableEq, Repr

structure SignedToken where
  id : String
  email : String
  role : String
  iss : Option String
  aud : Option String
  iat : Nat
  exp : Nat
  secret : String
deriving DecidableEq, Repr

structure SignOptions where
  expiresInSecs : Nat
  issuer : Option String
  audience : Option String
deriving DecidableEq, Repr

structure VerifyOptions where
  issuer : Option String
  audience : Option String
deriving DecidableEq, Repr

inductive JwtError where
  /-- the library's `TokenExpiredError` class -/
  | tokenExpiredError : JwtError
  /-- the library's `JsonWebTokenError` class (bad signature / shape / claims) -/
  | jsonWebTokenError : JwtError
deriving DecidableEq, Repr

def jwtSign (payload : TokenPayload) (secret : String) (opts : SignOptions)
    (now : Nat) : SignedToken :=
  { id := payload.id, email := payload.email, role := payload.role,
    iss := opts.issuer, aud := opts.audience,
    iat := now, exp := now + opts.expiresInSecs, secret := secret }

/-- An optional registered claim fails its check when the verify options
require a value and the token carries a different (or no) value. -/
def claimMismatch (required : Option String) (present : Option String) : Bool :=
  match required with
  | some v => present != some v
  | none => false

def jwtVerify (t : SignedToken) (secret : String) (opts : VerifyOptions)
    (now : Nat) : Except JwtError TokenPayload :=
  if t.secret ≠ secret then .error .jsonWebTokenError
  else if t.exp ≤ now then .error .tokenExpiredError
  else if claimMismatch opts.audience t.aud then .error .jsonWebTokenError
  else if claimMismatch opts.issuer t.iss then .error .jsonWebTokenError
  else .ok ⟨t.id, t.email, t.role⟩

/-! ### `JWTUtils` (`src/utils/jwt.ts`) -/

structure AuthTokens where
  accessToken : SignedToken
  refreshToken : SignedToken
deriving DecidableEq, Repr

/-- `JWTUtils.generateTokens`: signs the payload with `expiresIn: '7d'`
(resp. `'30d'`) and no other options; no issuer or audience is embedded. -/
def generateTokens (payload : TokenPayload) (now : Nat) : AuthTokens :=
  { accessToken :=
      jwtSign payload JWT_SECRET ⟨7 * 24 * 3600, none, none⟩ now,
    refreshToken :=
      jwtSign payload JWT_REFRESH_SECRET ⟨30 * 24 * 3600, none, none⟩ now }

/-- `JWTUtils.verifyAccessToken`: verifies against `JWT_SECRET` requiring
issuer `entry-management-server` and audience `entry-management-app`, and maps
the library error classes to the messages thrown in the `catch` block. -/
def verifyAccessToken (t : SignedToken) (now : Nat) : Except String TokenPayload :=
  match jwtVerify t JWT_SECRET
      ⟨some "entry-management-server", some "entry-management-app"⟩ now with
  | .ok p => .ok p
  | .error .tokenExpiredError => .error "Access token expired"
  | .error .jsonWebTokenError => .error "Invalid access token"

/-- `JWTUtils.verifyRefreshToken`: same checks against `JWT_REFRESH_SECRET`. -/
def verifyRefreshToken (t : SignedToken) (now : Nat) : Except String TokenPayload :=
  match jwtVerify t JWT_REFRESH_SECRET
      ⟨some "entry-management-server", some "entry-management-app"⟩ now with
  | .ok p => .ok p
  | .error .tokenExpiredError => .error "Refresh token expired"
  | .error .jsonWebTokenError => .error "Invalid refresh token"

/-- `JWTUtils.extractTokenFromHeader`: `authHeader.split(' ')` must yield exactly
two parts with the first literally `Bearer`. -/
def extractTokenFromHeader (authHeader : Option String) : Option String :=
  match authHeader with
  | none => none
  | some h =>
    match splitOnChar ' ' h.data with
    | [first, second] =>
      if first = "Bearer".data then some (String.mk second) else none
    | _ => none

/-! ### Users (`src/models/User.ts` document shape, from `src/types/index.ts`) -/

structure User where
  id : String
  name : String
  email : String
  password : String
  mobileNo : Option String
  role : String
  isActive : Bool
  createdAt : Nat
deriving DecidableEq, Repr

/-! ### Authentication Gate (`src/middleware/auth.ts`) -/

inductive AuthOutcome where
  /-- a `ResponseUtils.unauthorized` (HTTP 401) short-circuit -/
  | rejected : String → AuthOutcome
  /-- `req.user` attached and `next()` called -/
  | authenticated : TokenPayload → AuthOutcome
deriving DecidableEq, Repr

/-- String-level `JWTUtils.verifyAccessToken`: the wire token is first decoded
by the library (`decode`); an undecodable string is a `JsonWebTokenError`
(`jwt malformed`), mapped to the same `Invalid access token` message. -/
def verifyAccessTokenStr (decode : String → Option SignedToken) (s : String)
    (now : Nat) : Except String TokenPayload :=
  match decode s with
  | none => .error "Invalid access token"
  | some t => verifyAccessToken t now

/-- `authenticate` middleware: extract the bearer token (absent → 401
`Access token is required`), verify it, then re-check that the user exists and
is active; the `catch` block selects the 401 message by a case-sensitive
substring test on the thrown error's message. -/
def authenticate (decode : String → Option SignedToken) (authHeader : Option String)
    (users : List User) (now : Nat) : AuthOutcome :=
  match extractTokenFromHeader authHeader with
  | none => .rejected "Access token is required"
  | some raw =>
    match verifyAccessTokenStr decode raw now with
    | .error msg =>
      if strContains msg "expired" then .rejected "Access token expired"
      else if strContains msg "invalid" then .rejected "Invalid access token"
      else .rejected "Authentication failed"
    | .ok decoded =>
      match users.find? (fun u => u.id == decoded.id && u.isActive) with
      | none => .rejected "User not found or inactive"
      | some _ => .authenticated ⟨decoded.id, decoded.email, decoded.role⟩

/-! ### Entries (`src/models/Entry.ts` document shape, `src/types/index.ts`) -/

structure Entry where
  id : String
  srNo : String
  vehicleNo : String
  nameDetails : String
  /-- stored `Date`, modelled as a timestamp -/
  date : Nat
  netWeight : Option String
  moisture : Option String
  gatePassNo : Option String
  mobileNo : Option String
  unload : Option String
  shortage : Option String
  remarks : Option String
  rate : Option String
  userId : String
  createdAt : Nat
  updatedAt : Nat
deriving DecidableEq, Repr

/-- Request body of `POST /entries` after `validateCreateEntry` (`srNo`,
`vehicleNo`, `nameDetails` required; `date` arrives as an optional ISO string,
modelled parsed). -/
structure EntryBody where
  srNo : String
  vehicleNo : String
  nameDetails : String
  date : Option Nat
  netWeight : Option String
  moisture : Option String
  gatePassNo : Option String
  mobileNo : Option String
  unload : Option String
  shortage : Option String
  remarks : Option String
  rate : Option String
deriving DecidableEq, Repr

/-- Request body of `PUT /entries/:id` (`validateUpdateEntry` marks every
field optional; `none` models an absent — JS `undefined` — field). -/
structure UpdateBody where
  srNo : Option String
  vehicleNo : Option String
  nameDetails : Option String
  date : Option Nat
  netWeight : Option String
  moisture : Option String
  gatePassNo : Option String
  mobileNo : Option String
  unload : Option String
  shortage : Option String
  remarks : Option String
  rate : Option String
deriving DecidableEq, Repr

/-- Outcome of a single-entry controller action (`EntryController`). -/
inductive EntryResult where
  | okCreated : Entry → EntryResult
  | okEntry : Entry → EntryResult
  | okUpdated : Entry → EntryResult
  | okDeleted : String → EntryResult
  | notFound : String → EntryResult
  | conflictR : String → EntryResult
deriving DecidableEq, Repr

def EntryResult.isConflict : EntryResult → Bool
  | .conflictR _ => true
  | _ => false

def EntryResult.isNotFound : EntryResult → Bool
  | .notFound _ => true
  | _ => false

/-- `EntryController.createEntry` (post-auth, post-validation): pre-check
`findOne({ srNo, userId })`, reject with 409 on a hit, otherwise persist with
`date` defaulted to `new Date()`. `newId` stands for the generated `_id`. -/
def createEntry (store : List Entry) (uid : String) (body : EntryBody)
    (now : Nat) (newId : String) : EntryResult × List Entry :=
  match store.find? (fun e => e.srNo == body.srNo && e.userId == uid) with
  | some _ =>
    (.conflictR ("Serial number " ++ body.srNo ++ " already exists"), store)
  | none =>
    let e : Entry :=
      { id := newId, srNo := body.srNo, vehicleNo := body.vehicleNo,
        nameDetails := body.nameDetails,
        date := body.date.getD now,
        netWeight := body.netWeight, moisture := body.moisture,
        gatePassNo := body.gatePassNo, mobileNo := body.mobileNo,
        unload := body.unload, shortage := body.shortage,
        remarks := body.remarks, rate := body.rate,
        userId := uid, createdAt := now, updatedAt := now }
    (.okCreated e, store ++ [e])

/-- `EntryController.getEntryById`: `findOne({ _id: id, userId })`; absence
(nonexistent or foreign-owned) → 404 `Entry not found or unauthorized`. -/
def getEntryById (store : List Entry) (uid : String) (id : String) : EntryResult :=
  match store.find? (fun e => e.id == id && e.userId == uid) with
  | none => .notFound "Entry not found or unauthorized"
  | some e => .okEntry e

/-- `EntryController.deleteEntry`: ownership-scoped fetch, then
`findByIdAndDelete(id)`. -/
def deleteEntry (store : List Entry) (uid : String) (id : String) :
    EntryResult × List Entry :=
  match store.find? (fun e => e.id == id && e.userId == uid) with
  | none => (.notFound "Entry not found or unauthorized", store)
  | some _ => (.okDeleted id, store.filter (fun e => e.id != id))

/-- The document produced by `findByIdAndUpdate` in `updateEntry`: every body
field is written as given, but an `undefined` (absent) body field is stripped
by Mongoose, leaving the stored value; `date` falls back to the stored date
explicitly; `updatedAt` is refreshed. -/
def applyUpdate (entry : Entry) (body : UpdateBody) (now : Nat) : Entry :=
  { entry with
    srNo := body.srNo.getD entry.srNo,
    vehicleNo := body.vehicleNo.getD entry.vehicleNo,
    nameDetails := body.nameDetails.getD entry.nameDetails,
    date := body.date.getD entry.date,
    netWeight := body.netWeight.or entry.netWeight,
    moisture := body.moisture.or entry.moisture,
    gatePassNo := body.gatePassNo.or entry.gatePassNo,
    mobileNo := body.mobileNo.or entry.mobileNo,
    unload := body.unload.or entry.unload,
    shortage := body.shortage.or entry.shortage,
    remarks := body.remarks.or entry.remarks,
    rate := body.rate.or entry.rate,
    updatedAt := now }

/-- `EntryController.updateEntry`: ownership-scoped fetch; `srNo !== entry.srNo`
(a strict JS comparison, true whenever `srNo` is absent) triggers a uniqueness
re-check whose `srNo: undefined` condition Mongoose strips from the filter;
then `findByIdAndUpdate`. -/
def updateEntry (store : List Entry) (uid : String) (id : String)
    (body : UpdateBody) (now : Nat) : EntryResult × List Entry :=
  match store.find? (fun e => e.id == id && e.userId == uid) with
  | none => (.notFound "Entry not found or unauthorized", store)
  | some entry =>
    let doUpdate : EntryResult × List Entry :=
      (.okUpdated (applyUpdate entry body now),
       store.map (fun e => if e.id == id then applyUpdate e body now else e))
    if body.srNo != some entry.srNo then
      match store.find? (fun e =>
          (match body.srNo with
           | some s => e.srNo == s
           | none => true) && e.userId == uid && e.id != id) with
      | some _ =>
        (.conflictR ("Serial number " ++
            (match body.srNo with
             | some s => s
             | none => "undefined") ++ " already exists"), store)
      | none => doUpdate
    else doUpdate

/-! ### List query pipeline (`EntryController.getEntries`)

The MongoDB driver is modelled over the list store: `find(query)` filters,
`.sort` is a deterministic comparison sort, `.skip/.limit` are `drop/take`,
`countDocuments` is the filtered length.  The `$regex/$options: 'i'` search is
modelled as a case-insensitive substring match (the code passes the raw search
string as a pattern; metacharacter behaviour is outside this model). -/

def strContainsCI (s pat : String) : Bool :=
  occursIn (pat.data.map Char.toLower) (s.data.map Char.toLower)

def optContainsCI (o : Option String) (pat : String) : Bool :=
  match o with
  | none => false
  | some s => strContainsCI s pat

/-- The filter object built by `getEntries`: `{ userId }`, an optional
`date: {$gte, $lte}` range, and an optional `$or` of five `$regex` clauses. -/
def entryMatches (uid : String) (search : Option String)
    (startDate endDate : Option Nat) (e : Entry) : Bool :=
  e.userId == uid &&
  (match startDate with
   | some d => d ≤ e.date
   | none => true) &&
  (match endDate with
   | some d => e.date ≤ d
   | none => true) &&
  (match search with
   | none => true
   | some s =>
     strContainsCI e.srNo s || strContainsCI e.vehicleNo s ||
     strContainsCI e.nameDetails s || optContainsCI e.gatePassNo s ||
     optContainsCI e.remarks s)

/-- Compare two optional strings the way BSON orders a missing field against a
present one: missing sorts first ascending. -/
def cmpOptStr (a b : Option String) : Ordering :=
  match a, b with
  | none, none => .eq
  | none, some _ => .lt
  | some _, none => .gt
  | some x, some y => compare x y

/-- Document comparison for `sort[sortBy]`: any stored field may be named;
an unknown name compares every pair equal (no reordering). -/
def fieldCmp (field : String) (a b : Entry) : Ordering :=
  if field = "srNo" then compare a.srNo b.srNo
  else if field = "vehicleNo" then compare a.vehicleNo b.vehicleNo
  else if field = "nameDetails" then compare a.nameDetails b.nameDetails
  else if field = "date" then compare a.date b.date
  else if field = "createdAt" then compare a.createdAt b.createdAt
  else if field = "updatedAt" then compare a.updatedAt b.updatedAt
  else if field = "userId" then compare a.userId b.userId
  else if field = "netWeight" then cmpOptStr a.netWeight b.netWeight
  else if field = "moisture" then cmpOptStr a.moisture b.moisture
  else if field = "gatePassNo" then cmpOptStr a.gatePassNo b.gatePassNo
  else if field = "mobileNo" then cmpOptStr a.mobileNo b.mobileNo
  else if field = "unload" then cmpOptStr a.unload b.unload
  else if field = "shortage" then cmpOptStr a.shortage b.shortage
  else if field = "remarks" then cmpOptStr a.remarks b.remarks
  else if field = "rate" then cmpOptStr a.rate b.rate
  else .eq

/-- `le a b` — `a` may be placed before `b` under `{ [sortBy]: dir }`
(`dir = -1` for `desc`). -/
def sortLe (field : String) (desc : Bool) (a b : Entry) : Bool :=
  match fieldCmp field a b with
  | .lt => !desc
  | .eq => true
  | .gt => desc

def insertSorted (le : Entry → Entry → Bool) (a : Entry) :
    List Entry → List Entry
  | [] => [a]
  | b :: bs => if le a b then a :: b :: bs else b :: insertSorted le a bs

/-- Deterministic comparison sort standing in for the driver's `.sort`. -/
def sortEntries (le : Entry → Entry → Bool) : List Entry → List Entry
  | [] => []
  | a :: as => insertSorted le a (sortEntries le as)

structure Pagination where
  page : Nat
  limit : Nat
  total : Nat
  pages : Nat
deriving DecidableEq, Repr

structure PaginatedEntries where
  data : List Entry
  pagination : Pagination
deriving DecidableEq, Repr

/-- The filtered, sorted result set of a `getEntries` query (before paging). -/
def entriesQuery (store : List Entry) (uid : String) (search : Option String)
    (sortBy : String) (sortOrder : String) (startDate endDate : Option Nat) :
    List Entry :=
  sortEntries (sortLe sortBy (sortOrder == "desc"))
    (store.filter (entryMatches uid search startDate endDate))

/-- Core of `EntryController.getEntries` after query-string parsing:
`skip = (page-1)*limit`, `limit` caps the page, `total = countDocuments`,
`pages = Math.ceil(total/limit)`. -/
def getEntriesCore (store : List Entry) (uid : String) (pageNum limitNum : Nat)
    (search : Option String) (sortBy sortOrder : String)
    (startDate endDate : Option Nat) : PaginatedEntries :=
  let sorted := entriesQuery store uid search sortBy sortOrder startDate endDate
  let total := (store.filter (entryMatches uid search startDate endDate)).length
  { data := (sorted.drop ((pageNum - 1) * limitNum)).take limitNum,
    pagination :=
      { page := pageNum, limit := limitNum, total := total,
        pages := (total + limitNum - 1) / limitNum } }

/-- Query-string parameters of `GET /entries` (`QueryParams` in
`src/types/index.ts`; the two date bounds are modelled parsed, `new Date`
being a library call). -/
structure QueryParams where
  page : Option String
  limit : Option String
  search : Option String
  sortBy : Option String
  sortOrder : Option String
  startDate : Option Nat
  endDate : Option Nat
deriving DecidableEq, Repr

/-- Accumulate the value of a decimal digit string; `none` on a non-digit. -/
def digitsVal (acc : Nat) : List Char → Option Nat
  | [] => some acc
  | c :: rest =>
    if c.isDigit then digitsVal (acc * 10 + (c.toNat - 48)) rest else none

/-- The numeric value of a nonempty all-digit string (the strings
`parseInt(_, 10)` and the `isInt` validator agree on). -/
def strToNat (s : String) : Option Nat :=
  match s.data with
  | [] => none
  | cs => digitsVal 0 cs

/-- `parseInt(s, 10)` for the decimal strings the claims exercise. -/
def parseIntD (s : String) : Nat := (strToNat s).getD 0

/-- `EntryController.getEntries` with the controller's destructuring defaults
(`page='1'`, `limit='10'`, `sortBy='createdAt'`, `sortOrder='desc'`).  Note it
never consults `validationResult`, so recorded validation errors are ignored. -/
def getEntries (store : List Entry) (uid : String) (q : QueryParams) :
    PaginatedEntries :=
  getEntriesCore store uid
    (parseIntD (q.page.getD "1"))
    (parseIntD (q.limit.getD "10"))
    q.search (q.sortBy.getD "createdAt") (q.sortOrder.getD "desc")
    q.startDate q.endDate

/-- `validatePagination` (`src/middleware/validation.ts`): the recorded
error messages for `page`, `limit`, `search`, `sortBy` and `sortOrder`
(the two ISO-date checks delegate to a validator library and are outside
this model).  The chain only RECORDS errors; rejection requires the handler
to consult `validationResult`. -/
def validatePagination (q : QueryParams) : List String :=
  (match q.page with
   | none => []
   | some s =>
     match strToNat s with
     | some n => if 1 ≤ n then [] else ["Page must be a positive integer"]
     | none => ["Page must be a positive integer"]) ++
  (match q.limit with
   | none => []
   | some s =>
     match strToNat s with
     | some n =>
       if 1 ≤ n ∧ n ≤ 100 then [] else ["Limit must be between 1 and 100"]
     | none => ["Limit must be between 1 and 100"]) ++
  (match q.search with
   | none => []
   | some s =>
     if s.data.length ≤ 100 then []
     else ["Search term cannot be more than 100 characters"]) ++
  (match q.sortBy with
   | none => []
   | some s =>
     if s ∈ ["srNo", "vehicleNo", "nameDetails", "date", "createdAt"] then []
     else ["Invalid sort field"]) ++
  (match q.sortOrder with
   | none => []
   | some s =>
     if s ∈ ["asc", "desc"] then [] else ["Sort order must be asc or desc"])

/-! ### Entry router (`src/routes/entryRoutes.ts`)

Express matches registered routes in order; a path pattern is a list of
segments, each literal or a named parameter. -/

inductive HMethod where
  | get | post | put | deleteM
deriving DecidableEq, Repr

inductive Seg where
  | lit : String → Seg
  | param : String → Seg
deriving DecidableEq, Repr

inductive EHandler where
  | createEntryH | getEntriesH | getEntryByIdH | updateEntryH | deleteEntryH
  | exportEntriesH | exportAllEntriesH
deriving DecidableEq, Repr

/-- The routes registered on the `/entries` router, in registration order. -/
def entryRoutes : List (HMethod × List Seg × EHandler) :=
  [ (.post, [], .createEntryH),
    (.get, [], .getEntriesH),
    (.get, [.param "id"], .getEntryByIdH),
    (.put, [.param "id"], .updateEntryH),
    (.deleteM, [.param "id"], .deleteEntryH),
    (.get, [.lit "export"], .exportEntriesH),
    (.get, [.lit "export", .lit "all"], .exportAllEntriesH) ]

/-- Match a pattern against concrete path segments, collecting parameters. -/
def matchSegs : List Seg → List String → Option (List (String × String))
  | [], [] => some []
  | .lit s :: ps, x :: xs =>
    if s = x then matchSegs ps xs else none
  | .param n :: ps, x :: xs =>
    (matchSegs ps xs).map (fun ks => (n, x) :: ks)
  | _, _ => none

/-- First-match dispatch over a route table (Express layer traversal). -/
def dispatchRoutes (routes : List (HMethod × List Seg × EHandler))
    (m : HMethod) (path : List String) :
    Option (EHandler × List (String × String)) :=
  match routes with
  | [] => none
  | (rm, pat, h) :: rest =>
    if rm = m then
      match matchSegs pat path with
      | some ks => some (h, ks)
      | none => dispatchRoutes rest m path
    else dispatchRoutes rest m path

def dispatchEntry (m : HMethod) (path : List String) :
    Option (EHandler × List (String × String)) :=
  dispatchRoutes entryRoutes m path

/-! ### Response envelopes and JSON shapes (`src/utils/response.ts`) -/

/-- Serialized JSON values; `tok` embeds an issued token string. -/
inductive JVal where
  | s : String → JVal
  | b : Bool → JVal
  | n : Nat → JVal
  | tok : SignedToken → JVal
  | o : List (String × JVal) → JVal

mutual

/-- All object keys occurring anywhere in a JSON value. -/
def jkeys : JVal → List String
  | .o fs => jkeysList fs
  | _ => []

def jkeysList : List (String × JVal) → List String
  | [] => []
  | (k, v) :: rest => k :: jkeys v ++ jkeysList rest

end

structure ApiResp where
  success : Bool
  status : Nat
  message : String
  data : Option JVal

def respKeys (r : ApiResp) : List String :=
  match r.data with
  | none => []
  | some v => jkeys v

/-! ### `AuthController` (`src/controllers/authController.ts`)

The `User` model file itself is not part of the snapshot.
Modelled from the spec: `User.comparePassword` checks the candidate against
the stored one-way hash, and the pre-save hook stores `hashPassword password`;
the hash function is abstracted as an injective tagging. -/

def hashPassword (p : String) : String := "bcrypt$" ++ p

def comparePassword (u : User) (candidate : String) : Bool :=
  u.password == hashPassword candidate

/-- The identity summary object every auth endpoint returns (an
`mobileNo: undefined` key is dropped by JSON serialization). -/
def userSummary (u : User) : JVal :=
  .o ([("id", .s u.id), ("name", .s u.name), ("email", .s u.email)] ++
      (match u.mobileNo with
       | some m => [("mobileNo", JVal.s m)]
       | none => []) ++
      [("role", .s u.role), ("isActive", .b u.isActive),
       ("createdAt", .n u.createdAt)])

structure RegisterBody where
  name : String
  email : String
  password : String
  mobileNo : Option String
deriving DecidableEq, Repr

/-- `AuthController.register`: validation errors → 400; duplicate email → 409;
otherwise create the user and answer 201 with the summary and token pair. -/
def register (vErrors : List String) (body : RegisterBody)
    (users : List User) (now : Nat) (newId : String) : ApiResp × List User :=
  if vErrors ≠ [] then
    ({ success := false, status := 400, message := "Validation failed",
       data := none }, users)
  else
    match users.find? (fun u => u.email == body.email) with
    | some _ =>
      ({ success := false, status := 409,
         message := "User with this email already exists", data := none },
       users)
    | none =>
      let u : User :=
        { id := newId, name := body.name, email := body.email,
          password := hashPassword body.password, mobileNo := body.mobileNo,
          role := "user", isActive := true, createdAt := now }
      let tokens := generateTokens ⟨u.id, u.email, u.role⟩ now
      ({ success := true, status := 201,
         message := "User registered successfully",
         data := some (.o [("user", userSummary u),
                           ("accessToken", .tok tokens.accessToken),
                           ("refreshToken", .tok tokens.refreshToken)]) },
       users ++ [u])

/-- `AuthController.login`: find the active user by email, compare the
password, and answer with the summary and a fresh token pair. -/
def login (vErrors : List String) (email password : String)
    (users : List User) (now : Nat) : ApiResp :=
  if vErrors ≠ [] then
    { success := false, status := 400, message := "Validation failed",
      data := none }
  else
    match users.find? (fun u => u.email == email && u.isActive) with
    | none =>
      { success := false, status := 401,
        message := "Invalid email or password", data := none }
    | some u =>
      if comparePassword u password then
        let tokens := generateTokens ⟨u.id, u.email, u.role⟩ now
        { success := true, status := 200, message := "Login successful",
          data := some (.o [("user", userSummary u),
                            ("accessToken", .tok tokens.accessToken),
                            ("refreshToken", .tok tokens.refreshToken)]) }
      else
        { success := false, status := 401,
          message := "Invalid email or password", data := none }

/-- `AuthController.refreshToken`: verify the refresh token, re-check that the
identity still exists and is active, then mint a fresh pair; the `catch` block
maps thrown messages through the same case-sensitive substring tests. -/
def refreshTokenHandler (body : Option SignedToken) (users : List User)
    (now : Nat) : ApiResp :=
  match body with
  | none =>
    { success := false, status := 400, message := "Validation failed",
      data := none }
  | some tok =>
    match verifyRefreshToken tok now with
    | .error msg =>
      { success := false, status := 401,
        message :=
          if strContains msg "expired" then "Refresh token expired"
          else if strContains msg "invalid" then "Invalid refresh token"
          else "Token refresh failed",
        data := none }
    | .ok decoded =>
      match users.find? (fun u => u.id == decoded.id && u.isActive) with
      | none =>
        { success := false, status := 401,
          message := "User not found or inactive", data := none }
      | some u =>
        let tokens := generateTokens ⟨u.id, u.email, u.role⟩ now
        { success := true, status := 200,
          message := "Tokens refreshed successfully",
          data := some (.o [("accessToken", .tok tokens.accessToken),
                            ("refreshToken", .tok tokens.refreshToken)]) }

/-- `AuthController.getProfile` (post-`authenticate`). -/
def getProfile (userCtx : Option TokenPayload) (users : List User) : ApiResp :=
  match userCtx with
  | none =>
    { success := false, status := 401, message := "Authentication required",
      data := none }
  | some ctx =>
    match users.find? (fun u => u.id == ctx.id) with
    | none =>
      { success := false, status := 404, message := "User not found",
        data := none }
    | some u =>
      { success := true, status := 200,
        message := "Profile retrieved successfully",
        data := some (userSummary u) }

/-- `AuthController.updateProfile`: apply the optional `name`/`mobileNo`
changes (`if (name)` / `if (mobileNo !== undefined)`) and answer the summary. -/
def updateProfile (userCtx : Option TokenPayload) (vErrors : List String)
    (name mobileNo : Option String) (users : List User) :
    ApiResp × List User :=
  match userCtx with
  | none =>
    ({ success := false, status := 401, message := "Authentication required",
       data := none }, users)
  | some ctx =>
    if vErrors ≠ [] then
      ({ success := false, status := 400, message := "Validation failed",
         data := none }, users)
    else
      match users.find? (fun u => u.id == ctx.id) with
      | none =>
        ({ success := false, status := 404, message := "User not found",
           data := none }, users)
      | some u =>
        let u' : User :=
          { u with
            name := (match name with
                     | some nm => if nm ≠ "" then nm else u.name
                     | none => u.name),
            mobileNo := (match mobileNo with
                         | some m => some m
                         | none => u.mobileNo) }
        ({ success := true, status := 200,
           message := "Profile updated successfully",
           data := some (userSummary u') },
         users.map (fun v => if v.id == u.id then u' else v))

/-! ### Logout and server state (`AuthController.logout`) -/

/-- All state the service persists (users and entries; tokens are stateless
and never stored). -/
structure ServerState where
  users : List User
  entries : List Entry
deriving DecidableEq, Repr

/-- `AuthController.logout`: sends a success envelope and touches nothing. -/
def logout (st : ServerState) : ServerState × ApiResp :=
  (st, { success := true, status := 200, message := "Logged out successfully",
         data := none })

/-! ### Concrete fixtures for the list-endpoint claims -/

/-- A sample stored entry for concrete witnesses. -/
def mkEntry (id srNo uid : String) (d c : Nat) : Entry :=
  { id := id, srNo := srNo, vehicleNo := "MH01AB1234", nameDetails := "N",
    date := d, netWeight := none, moisture := none, gatePassNo := none,
    mobileNo := none, unload := none, shortage := none, remarks := none,
    rate := none, userId := uid, createdAt := c, updatedAt := c }

/-- An update body leaving every field unchanged. -/
def emptyUpdateBody : UpdateBody :=
  { srNo := none, vehicleNo := none, nameDetails := none, date := none,
    netWeight := none, moisture := none, gatePassNo := none, mobileNo := none,
    unload := none, shortage := none, remarks := none, rate := none }

/-- A create body for concrete witnesses. -/
def sampleBody : EntryBody :=
  { srNo := "1", vehicleNo := "MH01AB1234", nameDetails := "T", date := none,
    netWeight := none, moisture := none, gatePassNo := none, mobileNo := none,
    unload := none, shortage := none, remarks := none, rate := none }

/-- A refresh token carrying the issuer/audience pair the verifier demands,
signed with the refresh secret, expiring at time 100. -/
def sampleRefreshToken : SignedToken :=
  { id := "u1", email := "a@x.com", role := "user",
    iss := some "entry-management-server",
    aud := some "entry-management-app",
    iat := 0, exp := 100, secret := JWT_REFRESH_SECRET }


/-- A store of 101 entries owned by `u1` (ids/serials immaterial), already in
descending `createdAt` order. -/
def bigStore : List Entry :=
  (List.range 101).map (fun i => mkEntry "e" "1" "u1" (300 - i) (300 - i))

/-- A list request whose `limit` (1000) and `sortBy` (`userId`) both violate
`validatePagination`. -/
def badQuery : QueryParams :=
  { page := some "1", limit := some "1000", search := none,
    sortBy := some "userId", sortOrder := none, startDate := none,
    endDate := none }

/-- An entry with a `netWeight` value, for sort demonstrations. -/
def nwEntry (id nw : String) (c : Nat) : Entry :=
  { mkEntry id "1" "u1" c c with netWeight := some nw }

/-- A list request sorting by the non-allow-listed field `netWeight`. -/
def nwQuery : QueryParams :=
  { page := none, limit := none, search := none, sortBy := some "netWeight",
    sortOrder := some "asc", startDate := none, endDate := none }

end EMB

deriving instance DecidableEq for Except

namespace EMB

/-! ## Claims -/

/-- C1: the spec claims the access token produced by `generateTokens` carries
the fixed issuer/audience pair so that `verifyAccessToken` on a freshly issued,
unexpired token succeeds with the input claims (likewise the refresh token).
In the code `jwt.sign` is called without `issuer`/`audience`, while both verify
calls demand them, so verification of the service's own fresh tokens fails with
the invalid-token error: evaluated here at the concrete payload
`{id:"1", email:"a@x.com", role:"user"}` issued at time 0 and verified at
time 1, far inside both expiry windows. -/
theorem C1_issued_tokens_fail_verification :
    verifyAccessToken ((generateTokens ⟨"1", "a@x.com", "user"⟩ 0).accessToken) 1
      = .error "Invalid access token" ∧
    verifyRefreshToken ((generateTokens ⟨"1", "a@x.com", "user"⟩ 0).refreshToken) 1
      = .error "Invalid refresh token" ∧
    (generateTokens ⟨"1", "a@x.com", "user"⟩ 0).accessToken.iss = none ∧
    (generateTokens ⟨"1", "a@x.com", "user"⟩ 0).accessToken.aud = none := by
  decide

/-- C2: the spec claims `GET /entries/export` is dispatched to the export
handler.  In `entryRoutes.ts` the route `'/:id'` is registered before
`'/export'`, and Express dispatches to the first matching layer, so the
request is handled by `getEntryById` with `id = "export"` and the export
handler is unreachable on that path. -/
theorem C2_export_route_shadowed :
    dispatchEntry .get ["export"]
      = some (.getEntryByIdH, [("id", "export")]) ∧
    EHandler.getEntryByIdH ≠ EHandler.exportEntriesH ∧
    dispatchEntry .get ["export", "all"]
      = some (.exportAllEntriesH, []) := by
  decide

/-- C3 counterexample: the claim states that an absent bearer header yields
`Unauthorized("Access token required")` and an invalid-signature token yields
`"Invalid access token"`.  Concretely, the middleware's no-token message is
`"Access token is required"`, and a wrong-secret token is rejected with
`"Authentication failed"` because the catch block's case-sensitive
`includes('invalid')` never matches the codec's capitalized
`'Invalid access token'` message. -/
theorem C3_counterexample :
    (authenticate (fun _ => none) none [] 0
        = .rejected "Access token is required" ∧
     "Access token is required" ≠ "Access token required") ∧
    (authenticate
        (fun _ => some ⟨"1", "a@x.com", "user",
            some "entry-management-server", some "entry-management-app",
            0, 100, "wrong-secret"⟩)
        (some "Bearer x") [] 0
        = .rejected "Authentication failed" ∧
     "Authentication failed" ≠ "Invalid access token") := by
  decide

/-- C3 (amended): the Authentication Gate's rejection outcome is a total
function of the failure case: an absent/malformed bearer header yields
`Unauthorized("Access token is required")`; a token whose verification fails
with expiry yields the distinct message `"Access token expired"`; every other
verification failure — invalid signature/shape (`JsonWebTokenError`) and
undecodable tokens alike — yields `"Authentication failed"`, the
`"Invalid access token"` branch being dead code. -/
theorem C3_auth_gate_rejection_taxonomy
    (decode : String → Option SignedToken) (authHeader : Option String)
    (users : List User) (now : Nat) :
    (extractTokenFromHeader authHeader = none →
      authenticate decode authHeader users now
        = .rejected "Access token is required") ∧
    (∀ raw, extractTokenFromHeader authHeader = some raw →
      decode raw = none →
      authenticate decode authHeader users now
        = .rejected "Authentication failed") ∧
    (∀ raw t, extractTokenFromHeader authHeader = some raw →
      decode raw = some t →
      (jwtVerify t JWT_SECRET
          ⟨some "entry-management-server", some "entry-management-app"⟩ now
          = .error .tokenExpiredError →
        authenticate decode authHeader users now
          = .rejected "Access token expired") ∧
      (jwtVerify t JWT_SECRET
          ⟨some "entry-management-server", some "entry-management-app"⟩ now
          = .error .jsonWebTokenError →
        authenticate decode authHeader users now
          = .rejected "Authentication failed")) := by
  refine ⟨fun h => ?_, fun raw hx hd => ?_, fun raw t hx hd => ⟨fun hv => ?_, fun hv => ?_⟩⟩
  · simp [authenticate, h]
  · simp [authenticate, hx, verifyAccessTokenStr, hd]
    decide
  · simp [authenticate, hx, verifyAccessTokenStr, hd, verifyAccessToken, hv]
    decide
  · simp [authenticate, hx, verifyAccessTokenStr, hd, verifyAccessToken, hv]
    decide

/-- C3 witness: the amended taxonomy applied at a concrete absent header. -/
theorem C3_auth_gate_rejection_taxonomy_witness :
    extractTokenFromHeader none = none ∧
    authenticate (fun _ => none) none [] 0
      = .rejected "Access token is required" :=
  ⟨rfl,
   (C3_auth_gate_rejection_taxonomy (fun _ => none) none [] 0).1 rfl⟩

/-- If no stored entry has the requested id with the requesting owner, the
ownership-scoped `findOne` comes back empty. -/
lemma find_owned_eq_none {store : List Entry} {uid id : String}
    (h : ∀ e ∈ store, e.id = id → e.userId ≠ uid) :
    store.find? (fun e => e.id == id && e.userId == uid) = none := by
  rw [List.find?_eq_none]
  intro e he
  simp only [Bool.and_eq_true, beq_iff_eq, not_and]
  exact h e he

/-- A hit of the ownership-scoped `findOne` is a stored entry with the
requested id owned by the requester. -/
lemma find_owned_eq_some {store : List Entry} {uid id : String} {e : Entry}
    (h : store.find? (fun e => e.id == id && e.userId == uid) = some e) :
    e ∈ store ∧ e.id = id ∧ e.userId = uid := by
  have hm := List.mem_of_find?_eq_some h
  have hp := List.find?_some h
  simp only [Bool.and_eq_true, beq_iff_eq] at hp
  exact ⟨hm, hp⟩

/-- C4: no existence leakage — with `id1` naming no stored record and `id2`
naming a record not owned by the requester (or none at all), fetch, update and
delete return the identical `NotFound` outcome for both ids and leave the
store untouched, and a non-`NotFound` outcome is possible only when the id
names a record owned by the requester. -/
theorem C4_no_existence_leakage
    (store : List Entry) (uid id1 id2 : String) (body : UpdateBody) (now : Nat)
    (h1 : ∀ e ∈ store, e.id ≠ id1)
    (h2 : ∀ e ∈ store, e.id = id2 → e.userId ≠ uid) :
    getEntryById store uid id1 = .notFound "Entry not found or unauthorized" ∧
    getEntryById store uid id2 = getEntryById store uid id1 ∧
    deleteEntry store uid id1
      = (.notFound "Entry not found or unauthorized", store) ∧
    deleteEntry store uid id2 = deleteEntry store uid id1 ∧
    updateEntry store uid id1 body now
      = (.notFound "Entry not found or unauthorized", store) ∧
    updateEntry store uid id2 body now = updateEntry store uid id1 body now ∧
    (∀ id, (getEntryById store uid id).isNotFound = false →
      ∃ e ∈ store, e.id = id ∧ e.userId = uid) ∧
    (∀ id, ((deleteEntry store uid id).1).isNotFound = false →
      ∃ e ∈ store, e.id = id ∧ e.userId = uid) ∧
    (∀ id b n, ((updateEntry store uid id b n).1).isNotFound = false →
      ∃ e ∈ store, e.id = id ∧ e.userId = uid) := by
  have h1' : ∀ e ∈ store, e.id = id1 → e.userId ≠ uid := by
    intro e he hid
    exact absurd hid (h1 e he)
  have f1 := find_owned_eq_none h1'
  have f2 := find_owned_eq_none h2
  have notFoundOf : ∀ id,
      (store.find? (fun e => e.id == id && e.userId == uid) = none) →
      getEntryById store uid id = .notFound "Entry not found or unauthorized" ∧
      deleteEntry store uid id
        = (.notFound "Entry not found or unauthorized", store) ∧
      ∀ b n, updateEntry store uid id b n
        = (.notFound "Entry not found or unauthorized", store) := by
    intro id hf
    refine ⟨?_, ?_, ?_⟩ <;> simp [getEntryById, deleteEntry, updateEntry, hf]
  have ownedOf : ∀ id,
      (∃ e ∈ store, e.id = id ∧ e.userId = uid) ∨
      store.find? (fun e => e.id == id && e.userId == uid) = none := by
    intro id
    cases hf : store.find? (fun e => e.id == id && e.userId == uid) with
    | none => exact Or.inr rfl
    | some e => exact Or.inl ⟨e, (find_owned_eq_some hf).1,
        (find_owned_eq_some hf).2⟩
  refine ⟨(notFoundOf id1 f1).1, ?_, (notFoundOf id1 f1).2.1, ?_, ?_, ?_, ?_, ?_, ?_⟩
  · rw [(notFoundOf id1 f1).1, (notFoundOf id2 f2).1]
  · rw [(notFoundOf id1 f1).2.1, (notFoundOf id2 f2).2.1]
  · exact (notFoundOf id1 f1).2.2 body now
  · rw [(notFoundOf id1 f1).2.2 body now, (notFoundOf id2 f2).2.2 body now]
  · intro id hok
    rcases ownedOf id with h | hf
    · exact h
    · rw [(notFoundOf id hf).1] at hok
      simp [EntryResult.isNotFound] at hok
  · intro id hok
    rcases ownedOf id with h | hf
    · exact h
    · rw [(notFoundOf id hf).2.1] at hok
      simp [EntryResult.isNotFound] at hok
  · intro id b n hok
    rcases ownedOf id with h | hf
    · exact h
    · rw [(notFoundOf id hf).2.2 b n] at hok
      simp [EntryResult.isNotFound] at hok

/-- C4 witness: with one stored entry owned by `u2`, requester `u1` gets the
identical `NotFound` for the foreign id `"a"` and the nonexistent id `"zzz"`. -/
theorem C4_no_existence_leakage_witness :
    getEntryById [mkEntry "a" "1" "u2" 0 0] "u1" "zzz"
      = .notFound "Entry not found or unauthorized" ∧
    getEntryById [mkEntry "a" "1" "u2" 0 0] "u1" "a"
      = getEntryById [mkEntry "a" "1" "u2" 0 0] "u1" "zzz" ∧
    deleteEntry [mkEntry "a" "1" "u2" 0 0] "u1" "a"
      = deleteEntry [mkEntry "a" "1" "u2" 0 0] "u1" "zzz" := by
  have h := C4_no_existence_leakage [mkEntry "a" "1" "u2" 0 0] "u1" "zzz" "a"
    emptyUpdateBody 0 (by decide) (by decide)
  exact ⟨h.1, h.2.1, h.2.2.2.1⟩

/-- C5: the spec claims the list handler only ever applies an allow-listed
sort field and a page size within [1,100].  `getEntries` never consults
`validationResult`, so the errors `validatePagination` records are ignored:
with `limit=1000` the response pages with limit 1000 and returns 101 rows,
and with `sortBy=netWeight` (not allow-listed) the result is ordered by
`netWeight`, reversing the default order — evaluated here on concrete
stores. -/
theorem C5_list_validation_ignored :
    validatePagination badQuery
      = ["Limit must be between 1 and 100", "Invalid sort field"] ∧
    (getEntries bigStore "u1" badQuery).pagination.limit = 1000 ∧
    ((getEntries bigStore "u1" badQuery).data).length = 101 ∧
    validatePagination nwQuery = ["Invalid sort field"] ∧
    (getEntries [nwEntry "1" "b" 1, nwEntry "2" "a" 2] "u1" nwQuery).data
      = [nwEntry "2" "a" 2, nwEntry "1" "b" 1] := by
  decide

/-- `createEntry` answers `Conflict` exactly when some stored entry already
carries the same `(srNo, userId)` pair. -/
lemma createEntry_conflict_iff (store : List Entry) (uid : String)
    (body : EntryBody) (now : Nat) (newId : String) :
    (createEntry store uid body now newId).1.isConflict = true ↔
      ∃ e ∈ store, e.srNo = body.srNo ∧ e.userId = uid := by
  cases hf : store.find? (fun e => e.srNo == body.srNo && e.userId == uid) with
  | none =>
    simp only [createEntry, hf, EntryResult.isConflict]
    constructor
    · intro h; exact absurd h (by simp)
    · rintro ⟨e, he, hs, hu⟩
      have := List.find?_eq_none.mp hf e he
      simp [hs, hu] at this
  | some e =>
    simp only [createEntry, hf, EntryResult.isConflict]
    constructor
    · intro _
      have hm := List.mem_of_find?_eq_some hf
      have hp := List.find?_some hf
      simp only [Bool.and_eq_true, beq_iff_eq] at hp
      exact ⟨e, hm, hp⟩
    · intro _; trivial

/-- On the no-conflict path `createEntry` appends exactly the new document. -/
lemma createEntry_ok (store : List Entry) (uid : String) (body : EntryBody)
    (now : Nat) (newId : String)
    (h : ¬ ∃ e ∈ store, e.srNo = body.srNo ∧ e.userId = uid) :
    (createEntry store uid body now newId)
      = (.okCreated
          { id := newId, srNo := body.srNo, vehicleNo := body.vehicleNo,
            nameDetails := body.nameDetails, date := body.date.getD now,
            netWeight := body.netWeight, moisture := body.moisture,
            gatePassNo := body.gatePassNo, mobileNo := body.mobileNo,
            unload := body.unload, shortage := body.shortage,
            remarks := body.remarks, rate := body.rate,
            userId := uid, createdAt := now, updatedAt := now },
         store ++
          [{ id := newId, srNo := body.srNo, vehicleNo := body.vehicleNo,
             nameDetails := body.nameDetails, date := body.date.getD now,
             netWeight := body.netWeight, moisture := body.moisture,
             gatePassNo := body.gatePassNo, mobileNo := body.mobileNo,
             unload := body.unload, shortage := body.shortage,
             remarks := body.remarks, rate := body.rate,
             userId := uid, createdAt := now, updatedAt := now }]) := by
  cases hf : store.find? (fun e => e.srNo == body.srNo && e.userId == uid) with
  | none => simp [createEntry, hf]
  | some e =>
    have hm := List.mem_of_find?_eq_some hf
    have hp := List.find?_some hf
    simp only [Bool.and_eq_true, beq_iff_eq] at hp
    exact absurd ⟨e, hm, hp⟩ h

/-- C7: create returns `Conflict` iff a record with the same `(srNo, ownerId)`
pair already exists; a conflict leaves the store unchanged; a successful
create appends the entry with `date` defaulted to `now` when omitted; and with
no prior entries carrying the serial number, two distinct owners each create
successfully while a repeat create under the first owner conflicts. -/
theorem C7_create_conflict_iff_owner_scoped
    (store : List Entry) (uid : String) (body : EntryBody) (now : Nat)
    (newId : String) :
    ((createEntry store uid body now newId).1.isConflict = true ↔
      ∃ e ∈ store, e.srNo = body.srNo ∧ e.userId = uid) ∧
    ((createEntry store uid body now newId).1.isConflict = true →
      (createEntry store uid body now newId).2 = store) ∧
    ((createEntry store uid body now newId).1.isConflict = false →
      ∃ e, (createEntry store uid body now newId).1 = .okCreated e ∧
        (createEntry store uid body now newId).2 = store ++ [e] ∧
        e.srNo = body.srNo ∧ e.userId = uid ∧
        (body.date = none → e.date = now) ∧
        (∀ d, body.date = some d → e.date = d)) ∧
    (∀ uid2 newId2 newId3 now2 now3, uid2 ≠ uid →
      (¬ ∃ e ∈ store, e.srNo = body.srNo ∧ e.userId = uid) →
      (¬ ∃ e ∈ store, e.srNo = body.srNo ∧ e.userId = uid2) →
      (createEntry store uid body now newId).1.isConflict = false ∧
      (createEntry (createEntry store uid body now newId).2 uid2 body now2
        newId2).1.isConflict = false ∧
      (createEntry (createEntry store uid body now newId).2 uid body now3
        newId3).1.isConflict = true) := by
  refine ⟨createEntry_conflict_iff store uid body now newId, ?_, ?_, ?_⟩
  · intro h
    rcases (createEntry_conflict_iff store uid body now newId).mp h with
      ⟨e, he, hs, hu⟩
    cases hf : store.find? (fun e => e.srNo == body.srNo && e.userId == uid) with
    | none =>
      have := List.find?_eq_none.mp hf e he
      simp [hs, hu] at this
    | some e2 => simp [createEntry, hf]
  · intro h
    have hno : ¬ ∃ e ∈ store, e.srNo = body.srNo ∧ e.userId = uid := by
      intro hex
      rw [(createEntry_conflict_iff store uid body now newId).mpr hex] at h
      exact absurd h (by simp)
    rw [createEntry_ok store uid body now newId hno]
    refine ⟨_, rfl, rfl, rfl, rfl, fun hd => by simp [hd], fun d hd => by simp [hd]⟩
  · intro uid2 newId2 newId3 now2 now3 hne hno1 hno2
    have hok1 := createEntry_ok store uid body now newId hno1
    have hs1 : (createEntry store uid body now newId).2
        = store ++ [_] := congrArg Prod.snd hok1
    refine ⟨?_, ?_, ?_⟩
    · rw [hok1]; rfl
    · rw [Bool.eq_false_iff]
      intro hc
      rcases (createEntry_conflict_iff _ uid2 body now2 newId2).mp hc with
        ⟨e, he, hs, hu⟩
      rw [hs1] at he
      rcases List.mem_append.mp he with hin | hin
      · exact hno2 ⟨e, hin, hs, hu⟩
      · rcases List.mem_singleton.mp hin with rfl
        exact hne hu.symm
    · refine (createEntry_conflict_iff _ uid body now3 newId3).mpr ?_
      rw [hs1]
      exact ⟨_, List.mem_append.mpr (Or.inr (List.mem_singleton.mpr rfl)),
        rfl, rfl⟩

/-- C7 witness: from an empty store, owner `u1` creates serial `"1"`, a second
owner `u2` reuses the serial successfully, and a repeat create under `u1`
conflicts. -/
theorem C7_create_conflict_iff_owner_scoped_witness :
    (createEntry [] "u1" sampleBody 5 "e1").1.isConflict = false ∧
    (createEntry (createEntry [] "u1" sampleBody 5 "e1").2 "u2" sampleBody 6
      "e2").1.isConflict = false ∧
    (createEntry (createEntry [] "u1" sampleBody 5 "e1").2 "u1" sampleBody 7
      "e3").1.isConflict = true :=
  (C7_create_conflict_iff_owner_scoped [] "u1" sampleBody 5 "e1").2.2.2
    "u2" "e2" "e3" 6 7 (by decide) (by simp) (by simp)

/-- Inserting into a sorted list permutes consing. -/
lemma insertSorted_perm (le : Entry → Entry → Bool) (a : Entry) :
    ∀ l : List Entry, (insertSorted le a l).Perm (a :: l) := by
  intro l
  induction l with
  | nil => simp [insertSorted]
  | cons b bs ih =>
    rw [insertSorted]
    by_cases h : le a b
    · simp [h]
    · simp only [h, if_neg, Bool.false_eq_true, not_false_eq_true]
      exact (ih.cons b).trans (List.Perm.swap a b bs)

/-- The modelled driver sort is a permutation of its input. -/
lemma sortEntries_perm (le : Entry → Entry → Bool) :
    ∀ l : List Entry, (sortEntries le l).Perm l := by
  intro l
  induction l with
  | nil => simp [sortEntries]
  | cons a as ih =>
    rw [sortEntries]
    exact (insertSorted_perm le a _).trans (ih.cons a)

/-- Concatenating `n` successive `drop/take` windows of width `L` recovers any
list of length at most `n * L`. -/
lemma join_chunks (L : Nat) :
    ∀ (n : Nat) (l : List Entry), l.length ≤ n * L →
      ((List.range n).map (fun i => (l.drop (i * L)).take L)).flatten = l := by
  intro n
  induction n with
  | zero =>
    intro l h
    simp only [Nat.zero_mul, Nat.le_zero] at h
    simp [List.length_eq_zero.mp h]
  | succ n ih =>
    intro l h
    rw [List.range_succ_eq_map]
    simp only [List.map_cons, List.map_map, List.flatten_cons, Nat.zero_mul,
      List.drop_zero]
    have hmap : (List.range n).map
          ((fun i => (l.drop (i * L)).take L) ∘ Nat.succ)
        = (List.range n).map (fun i => ((l.drop L).drop (i * L)).take L) := by
      apply List.map_congr_left
      intro i _
      simp only [Function.comp]
      rw [List.drop_drop]
      congr 2
      rw [Nat.succ_eq_add_one]
      ring
    rw [hmap]
    rw [ih (l.drop L) (by
      rw [List.length_drop]
      rw [Nat.succ_mul] at h
      omega)]
    exact List.take_append_drop L l

/-- `ceil(N/L) = (N + L - 1) / L` pages cover all `N` records. -/
lemma le_pages_mul (N L : Nat) (hL : 0 < L) : N ≤ ((N + L - 1) / L) * L := by
  rcases Nat.eq_zero_or_pos N with rfl | hN
  · simp
  · have key := Nat.div_add_mod (N + L - 1) L
    have hm : (N + L - 1) % L < L := Nat.mod_lt _ hL
    obtain ⟨t, ht⟩ : ∃ t, ((N + L - 1) / L) * L = t := ⟨_, rfl⟩
    rw [ht]
    rw [mul_comm] at key
    rw [ht] at key
    omega

/-- The code's `Math.ceil(total/limit)` formula is the mathematical ceiling. -/
lemma ceil_div_eq (N L : Nat) (hL : 0 < L) :
    Nat.ceil ((N : ℚ) / (L : ℚ)) = (N + L - 1) / L := by
  rcases Nat.eq_zero_or_pos N with rfl | hN
  · rw [Nat.cast_zero, zero_div, Nat.ceil_zero]
    rw [eq_comm, Nat.div_eq_of_lt (by omega)]
  · have hq1 : 1 ≤ (N + L - 1) / L := (Nat.one_le_div_iff hL).mpr (by omega)
    have hLQ : (0:ℚ) < (L:ℚ) := by exact_mod_cast hL
    rw [Nat.ceil_eq_iff (by omega)]
    constructor
    · rw [lt_div_iff₀ hLQ]
      have hqm : ((N + L - 1) / L) * L ≤ N + L - 1 := Nat.div_mul_le_self _ _
      have hsm : ((N + L - 1) / L - 1) * L = ((N + L - 1) / L) * L - 1 * L :=
        Nat.sub_mul _ 1 L
      have hlt : ((N + L - 1) / L - 1) * L < N := by
        obtain ⟨t, ht⟩ : ∃ t, ((N + L - 1) / L) * L = t := ⟨_, rfl⟩
        rw [ht] at hqm hsm
        rw [hsm, one_mul]
        omega
      exact_mod_cast hlt
    · rw [div_le_iff₀ hLQ]
      exact_mod_cast le_pages_mul N L hL

/-- C6: pagination law — for every owner, filter and sort choice and every
page size `L ∈ [1,100]`, the reported total is the number `N` of matching
records, the reported page count is `⌈N/L⌉`, page `p` holds the `p`-th
`L`-window of the filtered, sorted result set (itself a permutation of the
filtered records, so nothing is dropped or duplicated), and concatenating the
data arrays of pages `1..⌈N/L⌉` in order reproduces that result set. -/
theorem C6_pagination_law
    (store : List Entry) (uid : String) (search : Option String)
    (sortBy sortOrder : String) (startDate endDate : Option Nat)
    (L p : Nat) (hL1 : 1 ≤ L) (hL2 : L ≤ 100) :
    (getEntriesCore store uid p L search sortBy sortOrder startDate
        endDate).pagination.total
      = (store.filter (entryMatches uid search startDate endDate)).length ∧
    (getEntriesCore store uid p L search sortBy sortOrder startDate
        endDate).pagination.pages
      = Nat.ceil
          ((((store.filter (entryMatches uid search startDate
              endDate)).length : ℚ)) / (L : ℚ)) ∧
    (getEntriesCore store uid p L search sortBy sortOrder startDate
        endDate).data
      = ((entriesQuery store uid search sortBy sortOrder startDate
            endDate).drop ((p - 1) * L)).take L ∧
    (entriesQuery store uid search sortBy sortOrder startDate endDate).Perm
      (store.filter (entryMatches uid search startDate endDate)) ∧
    ((List.range
        ((getEntriesCore store uid 1 L search sortBy sortOrder startDate
            endDate).pagination.pages)).map
      (fun i => (getEntriesCore store uid (i + 1) L search sortBy sortOrder
          startDate endDate).data)).flatten
      = entriesQuery store uid search sortBy sortOrder startDate endDate := by
  have hperm := sortEntries_perm (sortLe sortBy (sortOrder == "desc"))
    (store.filter (entryMatches uid search startDate endDate))
  refine ⟨rfl, ?_, rfl, hperm, ?_⟩
  · rw [ceil_div_eq _ L (by omega)]
    rfl
  · have hlen : (entriesQuery store uid search sortBy sortOrder startDate
        endDate).length
        = (store.filter (entryMatches uid search startDate endDate)).length :=
      hperm.length_eq
    have hchunks := join_chunks L
      (((store.filter (entryMatches uid search startDate endDate)).length
          + L - 1) / L)
      (entriesQuery store uid search sortBy sortOrder startDate endDate)
      (by rw [hlen]; exact le_pages_mul _ L (by omega))
    simp only [getEntriesCore, Nat.add_sub_cancel]
    exact hchunks

/-- C6 witness: the pagination law applied to a three-entry store with page
size 2 and page 2. -/
theorem C6_pagination_law_witness :
    (1 ≤ 2 ∧ 2 ≤ 100) ∧
    ((getEntriesCore [mkEntry "1" "1" "u1" 5 1, mkEntry "2" "2" "u1" 6 2,
        mkEntry "3" "3" "u1" 7 3] "u1" 2 2 none "date" "desc" none
        none).pagination.total
      = (([mkEntry "1" "1" "u1" 5 1, mkEntry "2" "2" "u1" 6 2,
          mkEntry "3" "3" "u1" 7 3]).filter
            (entryMatches "u1" none none none)).length ∧
    ((List.range
        ((getEntriesCore [mkEntry "1" "1" "u1" 5 1, mkEntry "2" "2" "u1" 6 2,
            mkEntry "3" "3" "u1" 7 3] "u1" 1 2 none "date" "desc" none
            none).pagination.pages)).map
      (fun i => (getEntriesCore [mkEntry "1" "1" "u1" 5 1,
          mkEntry "2" "2" "u1" 6 2, mkEntry "3" "3" "u1" 7 3] "u1" (i + 1) 2
          none "date" "desc" none none).data)).flatten
      = entriesQuery [mkEntry "1" "1" "u1" 5 1, mkEntry "2" "2" "u1" 6 2,
          mkEntry "3" "3" "u1" 7 3] "u1" none "date" "desc" none none) := by
  have h := C6_pagination_law [mkEntry "1" "1" "u1" 5 1,
    mkEntry "2" "2" "u1" 6 2, mkEntry "3" "3" "u1" 7 3] "u1" none "date"
    "desc" none none 2 2 (by decide) (by decide)
  exact ⟨⟨by decide, by decide⟩, h.1, h.2.2.2.2⟩

/-- C9: logout is a server-side no-op — it changes no persisted state (users
and entries are returned untouched, and no token state exists to invalidate),
always answers the success envelope, and any bearer token authenticates
against the post-logout state exactly as it did before. -/
theorem C9_logout_is_noop (st : ServerState) :
    (logout st).1 = st ∧
    (logout st).2 = { success := true, status := 200,
                      message := "Logged out successfully", data := none } ∧
    (∀ decode authHeader now,
      authenticate decode authHeader (logout st).1.users now
        = authenticate decode authHeader st.users now) :=
  ⟨rfl, rfl, fun _ _ _ => rfl⟩

/-- C10: the refresh-token exchange succeeds only when the presented token
verifies and the identity it names still exists with the active flag set; a
verified token whose identity is missing or inactive is answered with 401
`User not found or inactive` carrying no data, so no tokens are minted. -/
theorem C10_refresh_rechecks_liveness (body : Option SignedToken)
    (users : List User) (now : Nat) :
    ((refreshTokenHandler body users now).success = true →
      ∃ tok decoded, body = some tok ∧
        verifyRefreshToken tok now = .ok decoded ∧
        ∃ u ∈ users, u.id = decoded.id ∧ u.isActive = true) ∧
    (∀ tok decoded, body = some tok →
      verifyRefreshToken tok now = .ok decoded →
      (¬ ∃ u ∈ users, u.id = decoded.id ∧ u.isActive = true) →
      refreshTokenHandler body users now
        = { success := false, status := 401,
            message := "User not found or inactive", data := none }) := by
  constructor
  · intro hok
    cases hb : body with
    | none => rw [hb] at hok; simp [refreshTokenHandler] at hok
    | some tok =>
      rw [hb] at hok
      cases hv : verifyRefreshToken tok now with
      | error msg => simp [refreshTokenHandler, hv] at hok
      | ok decoded =>
        simp only [refreshTokenHandler, hv] at hok
        cases hf : users.find? (fun u => u.id == decoded.id && u.isActive) with
        | none => simp only [hf] at hok; simp at hok
        | some u =>
          have hm := List.mem_of_find?_eq_some hf
          have hp := List.find?_some hf
          simp only [Bool.and_eq_true, beq_iff_eq] at hp
          exact ⟨tok, decoded, rfl, hv, u, hm, hp.1, hp.2⟩
  · intro tok decoded hb hv hno
    have hf : users.find? (fun u => u.id == decoded.id && u.isActive) = none := by
      rw [List.find?_eq_none]
      intro u hu
      simp only [Bool.and_eq_true, beq_iff_eq, not_and]
      intro hid hact
      exact hno ⟨u, hu, hid, hact⟩
    rw [hb]
    simp only [refreshTokenHandler, hv, hf]

/-- C10 witness: a cryptographically valid refresh token naming an identity
absent from the store is rejected without minting tokens. -/
theorem C10_refresh_rechecks_liveness_witness :
    verifyRefreshToken sampleRefreshToken 10
      = .ok ⟨"u1", "a@x.com", "user"⟩ ∧
    refreshTokenHandler (some sampleRefreshToken) [] 10
      = { success := false, status := 401,
          message := "User not found or inactive", data := none } :=
  ⟨by decide,
   (C10_refresh_rechecks_liveness (some sampleRefreshToken) [] 10).2
     sampleRefreshToken ⟨"u1", "a@x.com", "user"⟩ rfl (by decide) (by simp)⟩

/-- The identity summary serializes only the seven whitelisted keys. -/
lemma userSummary_no_password (u : User) :
    "password" ∉ jkeys (userSummary u) := by
  rcases hm : u.mobileNo with _ | m <;>
    simp [userSummary, hm, jkeys, jkeysList]

/-- C8: password-hash confidentiality — no outbound response of register,
login, refresh, get-profile or update-profile contains a `password` key
anywhere in its data, for every input and store. -/
theorem C8_password_never_serialized
    (vErrors : List String) (body : RegisterBody) (users : List User)
    (now : Nat) (newId : String) (email password : String)
    (rtok : Option SignedToken) (ctx : Option TokenPayload)
    (nm mb : Option String) :
    "password" ∉ respKeys (register vErrors body users now newId).1 ∧
    "password" ∉ respKeys (login vErrors email password users now) ∧
    "password" ∉ respKeys (refreshTokenHandler rtok users now) ∧
    "password" ∉ respKeys (getProfile ctx users) ∧
    "password" ∉ respKeys (updateProfile ctx vErrors nm mb users).1 := by
  refine ⟨?_, ?_, ?_, ?_, ?_⟩
  · rw [register]
    split
    · simp [respKeys]
    · cases hf : users.find? (fun u => u.email == body.email) with
      | none =>
        simp only [hf]
        simp [respKeys, jkeys, jkeysList, userSummary_no_password]
        have := userSummary_no_password
          { id := newId, name := body.name, email := body.email,
            password := hashPassword body.password, mobileNo := body.mobileNo,
            role := "user", isActive := true, createdAt := now }
        simp [jkeys] at this ⊢
        simpa using this
      | some u => simp [hf, respKeys]
  · rw [login]
    split
    · simp [respKeys]
    · cases hf : users.find? (fun u => u.email == email && u.isActive) with
      | none => simp [hf, respKeys]
      | some u =>
        simp only [hf]
        by_cases hc : comparePassword u password = true
        · simp only [hc, if_pos rfl]
          have := userSummary_no_password u
          simp [respKeys, jkeys, jkeysList] at this ⊢
          simpa using this
        · simp [hc, respKeys]
  · cases rtok with
    | none => simp [refreshTokenHandler, respKeys]
    | some tok =>
      cases hv : verifyRefreshToken tok now with
      | error msg => simp [refreshTokenHandler, hv, respKeys]
      | ok decoded =>
        simp only [refreshTokenHandler, hv]
        cases hf : users.find? (fun u => u.id == decoded.id && u.isActive) with
        | none => simp [hf, respKeys]
        | some u => simp [hf, respKeys, jkeys, jkeysList]
  · cases ctx with
    | none => simp [getProfile, respKeys]
    | some c =>
      simp only [getProfile]
      cases hf : users.find? (fun u => u.id == c.id) with
      | none => simp [hf, respKeys]
      | some u =>
        simp only [hf]
        have := userSummary_no_password u
        simp [respKeys] at this ⊢
        exact this
  · cases ctx with
    | none => simp [updateProfile, respKeys]
    | some c =>
      rw [updateProfile]
      split
      · simp [respKeys]
      · cases hf : users.find? (fun u => u.id == c.id) with
        | none => simp [hf, respKeys]
        | some u =>
          simp only [hf]
          have := userSummary_no_password
            { u with
              name := (match nm with
                       | some x => if x ≠ "" then x else u.name
                       | none => u.name),
              mobileNo := (match mb with
                           | some m => some m
                           | none => u.mobileNo) }
          simp [respKeys] at this ⊢
          exact this

end EMB

